import Mathlib

/-!
Verification development for the Input-Output-Utils repository.

This file gives a shallow embedding of the sheet-composition and
cell-format-merging engine of the repository (src/input_output_utils/excel.py,
together with the extension dispatch of input_output_managers.py and the
JSON-lines collaborator of jsonl.py) and proves or refutes the frozen claims
about it.

Modelling conventions:
  - Python scalar cell values are modelled by the inductive type Cell.  The
    constructor Cell.empty models the empty-string filler used by
    DataSheet._ensure_size, Cell.null models None and NaN (the values for
    which pandas isna is true), Cell.inf and Cell.neginf model the two float
    infinities, and Cell.str and Cell.num model ordinary scalars.
  - Python dictionaries keyed by coordinates are modelled by association
    lists in insertion order, which is exactly the iteration order of a
    Python dict.  Updating the value of an existing key keeps its position,
    as in Python.
  - Code that raises is modelled with Except String; the string carries the
    exception class and message.
  - copy.deepcopy on pure attribute records is the identity on values, so it
    is not modelled explicitly except where object identity matters (the
    format-deduplication model for the export path).
-/

/-- Cell scalar values of the grid (see the modelling conventions above). -/
inductive Cell
  | empty
  | null
  | inf
  | neginf
  | str (s : String)
  | num (n : Int)
deriving DecidableEq

/-- Colors of enums.HexColor (enums.py). -/
inductive HexColor
  | DARK_BLUE
  | BLUE
  | LIGHT_BLUE
  | DARK_GREEN
  | PASTEL_GREEN
  | LIGHT_PINK
  | RED
deriving DecidableEq

/-- ExcelFormat (excel.py lines 14-26): five optional styling attributes.
A none value models a Python attribute holding None. -/
structure ExcelFormat where
  font_color : Option HexColor
  font_size : Option Int
  is_bold : Option Bool
  fill_color : Option HexColor
  text_align : Option String
deriving DecidableEq

/-- Python if v is not None then v else old, for one attribute. -/
def pickSet {α : Type} (new old : Option α) : Option α :=
  match new with
  | some v => some v
  | none => old

/-- The attribute-wise effect of ExcelFormat.update (excel.py lines 52-54):
every attribute of other that is not None overwrites the attribute of self. -/
def ExcelFormat.updateFields (self other : ExcelFormat) : ExcelFormat :=
  { font_color := pickSet other.font_color self.font_color
    font_size := pickSet other.font_size self.font_size
    is_bold := pickSet other.is_bold self.is_bold
    fill_color := pickSet other.fill_color self.fill_color
    text_align := pickSet other.text_align self.text_align }

/-- A Python argument passed to ExcelFormat.update: either an ExcelFormat or a
value of some other runtime type, identified by its type name. -/
inductive PyArg
  | fmt (f : ExcelFormat)
  | nonFormat (typeName : String)

/-- ExcelFormat.update (excel.py lines 48-54): raises TypeError when the
argument is not an ExcelFormat, otherwise overwrites every attribute whose
value in other is not None. -/
def ExcelFormat.update (self : ExcelFormat) (other : PyArg) : Except String ExcelFormat :=
  match other with
  | PyArg.nonFormat t =>
      Except.error ("TypeError: Type " ++ t ++ " not applicable to function update of ExcelFormat.")
  | PyArg.fmt o => Except.ok (self.updateFields o)

/-- Boolean test of whether an Except value is an error (a raised exception). -/
def isExceptError {α : Type} : Except String α → Bool
  | Except.error _ => true
  | Except.ok _ => false

/-- Lookup in an insertion-ordered association list, modelling Python dict
indexing for the coordinate map of CellFormatMap. -/
def lookupLoc : List ((Nat × Nat) × ExcelFormat) → (Nat × Nat) → Option ExcelFormat
  | [], _ => none
  | (l, f) :: rest, loc => if l = loc then some f else lookupLoc rest loc

/-- In-place value update of an existing key, keeping its dict position, as a
Python dict does when the stored value object is mutated. -/
def setLoc : List ((Nat × Nat) × ExcelFormat) → (Nat × Nat) → ExcelFormat → List ((Nat × Nat) × ExcelFormat)
  | [], _, _ => []
  | (l, f) :: rest, loc, g => if l = loc then (l, g) :: rest else (l, f) :: setLoc rest loc g

/-- CellFormatMap (excel.py lines 56-78): the _cell_map dict from (row, col)
to a stored ExcelFormat, in insertion order. -/
structure CellFormatMap where
  cells : List ((Nat × Nat) × ExcelFormat)
deriving DecidableEq

/-- CellFormatMap.format_cell (excel.py lines 61-74): store a copy at a fresh
coordinate; at an occupied coordinate merge into the stored format when
exist_ok is true, else raise KeyError. -/
def CellFormatMap.format_cell (m : CellFormatMap) (row_idx col_idx : Nat)
    (excel_format : ExcelFormat) (exist_ok : Bool) : Except String CellFormatMap :=
  match lookupLoc m.cells (row_idx, col_idx) with
  | none => Except.ok ⟨m.cells ++ [((row_idx, col_idx), excel_format)]⟩
  | some existing =>
      if exist_ok then
        Except.ok ⟨setLoc m.cells (row_idx, col_idx) (existing.updateFields excel_format)⟩
      else
        Except.error ("KeyError: Cell at (" ++ toString row_idx ++ ", " ++ toString col_idx
          ++ ") already exists in CellFormatMap.")

/-- Two consecutive format_cell calls at the same coordinate with the same
exist_ok flag; the second call runs only when the first did not raise. -/
def formatTwice (m : CellFormatMap) (r c : Nat) (f1 f2 : ExcelFormat) (exist_ok : Bool) :
    Except String CellFormatMap :=
  match m.format_cell r c f1 exist_ok with
  | Except.error e => Except.error e
  | Except.ok m1 => m1.format_cell r c f2 exist_ok

/-- Observes a format_cell result: none when it raised, otherwise the stored
format at the given coordinate. -/
def mapLookup (e : Except String CellFormatMap) (loc : Nat × Nat) : Option (Option ExcelFormat) :=
  match e with
  | Except.error _ => none
  | Except.ok mm => some (lookupLoc mm.cells loc)

theorem lookupLoc_append_none {xs ys : List ((Nat × Nat) × ExcelFormat)} {loc : Nat × Nat}
    (h : lookupLoc xs loc = none) : lookupLoc (xs ++ ys) loc = lookupLoc ys loc := by
  induction xs with
  | nil => rfl
  | cons p rest ih =>
      obtain ⟨l, f⟩ := p
      by_cases hp : l = loc
      · simp [lookupLoc, hp] at h
      · simp only [lookupLoc, hp, if_false] at h
        simp only [List.cons_append, lookupLoc, hp, if_false]
        exact ih h

theorem lookupLoc_append_some {xs ys : List ((Nat × Nat) × ExcelFormat)} {loc : Nat × Nat}
    {f : ExcelFormat} (h : lookupLoc xs loc = some f) :
    lookupLoc (xs ++ ys) loc = some f := by
  induction xs with
  | nil => simp [lookupLoc] at h
  | cons p rest ih =>
      obtain ⟨l, f0⟩ := p
      by_cases hp : l = loc
      · simp only [lookupLoc, hp, if_true] at h
        simpa [List.cons_append, lookupLoc, hp] using h
      · simp only [lookupLoc, hp, if_false] at h
        simp only [List.cons_append, lookupLoc, hp, if_false]
        exact ih h

theorem lookupLoc_setLoc_found {xs : List ((Nat × Nat) × ExcelFormat)} {loc : Nat × Nat}
    {f : ExcelFormat} (g : ExcelFormat) (h : lookupLoc xs loc = some f) :
    lookupLoc (setLoc xs loc g) loc = some g := by
  induction xs with
  | nil => simp [lookupLoc] at h
  | cons p rest ih =>
      obtain ⟨l, f0⟩ := p
      by_cases hp : l = loc
      · simp [setLoc, lookupLoc, hp]
      · simp only [lookupLoc, hp, if_false] at h
        simp only [setLoc, hp, if_false, lookupLoc]
        exact ih h

/-- format_cell with exist_ok false succeeds exactly on a fresh coordinate and
then appends the entry at the end of the map. -/
theorem format_cell_false_ok {m m' : CellFormatMap} {r c : Nat} {f : ExcelFormat} :
    m.format_cell r c f false = Except.ok m' ↔
      lookupLoc m.cells (r, c) = none ∧ m' = ⟨m.cells ++ [((r, c), f)]⟩ := by
  unfold CellFormatMap.format_cell
  cases h : lookupLoc m.cells (r, c) with
  | none => simp [eq_comm]
  | some g => simp

/-- C2: merging an ExcelFormat B into A with ExcelFormat.update succeeds and
sets every attribute that is non-null in B to the value of B while keeping the
value of A for every attribute that is null in B; calling update with a value
that is not an ExcelFormat raises a TypeError. -/
theorem claim_C2 : ∀ a b : ExcelFormat,
    (∃ r, a.update (PyArg.fmt b) = Except.ok r ∧
      r.font_color = (if b.font_color.isSome then b.font_color else a.font_color) ∧
      r.font_size = (if b.font_size.isSome then b.font_size else a.font_size) ∧
      r.is_bold = (if b.is_bold.isSome then b.is_bold else a.is_bold) ∧
      r.fill_color = (if b.fill_color.isSome then b.fill_color else a.fill_color) ∧
      r.text_align = (if b.text_align.isSome then b.text_align else a.text_align)) ∧
    (∀ t : String, isExceptError (a.update (PyArg.nonFormat t)) = true) := by
  intro a b
  constructor
  · refine ⟨a.updateFields b, rfl, ?_, ?_, ?_, ?_, ?_⟩
    · cases h : b.font_color <;> simp [ExcelFormat.updateFields, pickSet, h]
    · cases h : b.font_size <;> simp [ExcelFormat.updateFields, pickSet, h]
    · cases h : b.is_bold <;> simp [ExcelFormat.updateFields, pickSet, h]
    · cases h : b.fill_color <;> simp [ExcelFormat.updateFields, pickSet, h]
    · cases h : b.text_align <;> simp [ExcelFormat.updateFields, pickSet, h]
  · intro t
    rfl

/-- A format whose only set attribute is a red font color. -/
def c3red : ExcelFormat := ⟨some HexColor.RED, none, none, none, none⟩

/-- A format with every attribute unset. -/
def c3blank : ExcelFormat := ⟨none, none, none, none, none⟩

/-- A registry that already holds a format at coordinate (0, 0) before the two
format_cell calls of the claim are made. -/
def c3map : CellFormatMap := ⟨[((0, 0), c3red)]⟩

/-- C3 counterexample: on a registry that already holds a red-font format at
(0, 0), formatting (0, 0) twice with exist_ok true and two all-unset formats
never fails, but the stored format afterwards keeps the red font color, so it
differs from the merge of the two supplied formats, refuting the claim as
stated for every FormatRegistry. -/
theorem claim_C3_counterexample :
    isExceptError (formatTwice c3map 0 0 c3blank c3blank true) = false ∧
    mapLookup (formatTwice c3map 0 0 c3blank c3blank true) (0, 0) ≠
      some (some (ExcelFormat.updateFields c3blank c3blank)) := by
  constructor
  · rfl
  · decide

/-- C3 (amended): for every FormatRegistry and coordinate, if a format_cell
call with exist_ok false succeeds then a second exist_ok false call at the
same coordinate raises; two exist_ok true calls never raise; and when the
coordinate was initially unformatted, the format stored after two exist_ok
true calls equals the merge of the two supplied formats. -/
theorem claim_C3 : ∀ (m : CellFormatMap) (r c : Nat) (f1 f2 : ExcelFormat),
    (∀ m1, m.format_cell r c f1 false = Except.ok m1 →
      isExceptError (m1.format_cell r c f2 false) = true) ∧
    (isExceptError (formatTwice m r c f1 f2 true) = false) ∧
    (lookupLoc m.cells (r, c) = none →
      mapLookup (formatTwice m r c f1 f2 true) (r, c) =
        some (some (f1.updateFields f2))) := by
  intro m r c f1 f2
  refine ⟨?_, ?_, ?_⟩
  · intro m1 h
    obtain ⟨hfree, hm1⟩ := format_cell_false_ok.mp h
    subst hm1
    have hl : lookupLoc (m.cells ++ [((r, c), f1)]) (r, c) = some f1 := by
      rw [lookupLoc_append_none hfree]
      simp [lookupLoc]
    unfold CellFormatMap.format_cell
    simp only [hl]
    rfl
  · unfold formatTwice CellFormatMap.format_cell
    cases h1 : lookupLoc m.cells (r, c) with
    | none =>
        simp only
        cases h2 : lookupLoc (m.cells ++ [((r, c), f1)]) (r, c) <;> rfl
    | some g =>
        simp only [if_true]
        cases h2 : lookupLoc (setLoc m.cells (r, c) (g.updateFields f1)) (r, c) <;> rfl
  · intro hfree
    unfold formatTwice CellFormatMap.format_cell
    simp only [hfree]
    have hl : lookupLoc (m.cells ++ [((r, c), f1)]) (r, c) = some f1 := by
      rw [lookupLoc_append_none hfree]
      simp [lookupLoc]
    simp only [hl, if_true, mapLookup]
    rw [lookupLoc_setLoc_found (f1.updateFields f2) hl]

/-- C3 witness: the amended claim applied at concrete inputs, an initially
empty registry and a registry already holding a format at the coordinate. -/
theorem claim_C3_witness :
    mapLookup (formatTwice (⟨[]⟩ : CellFormatMap) 0 0 c3red c3blank true) (0, 0) =
      some (some (ExcelFormat.updateFields c3red c3blank)) ∧
    isExceptError ((⟨[((0, 0), c3red)]⟩ : CellFormatMap).format_cell 0 0 c3blank false) = true := by
  constructor
  · exact (claim_C3 ⟨[]⟩ 0 0 c3red c3blank).2.2 rfl
  · exact (claim_C3 ⟨[]⟩ 0 0 c3red c3blank).1 ⟨[((0, 0), c3red)]⟩ rfl

/-- Total list indexing with a default, modelling Python list indexing at the
in-range positions used by the grid code. -/
def nthD {α : Type} : List α → Nat → α → α
  | [], _, d => d
  | x :: _, 0, _ => x
  | _ :: xs, n + 1, d => nthD xs n d

/-- In-range list element assignment, modelling a Python list item store. -/
def setNth {α : Type} : List α → Nat → α → List α
  | [], _, _ => []
  | _ :: xs, 0, v => v :: xs
  | x :: xs, n + 1, v => x :: setNth xs n v

theorem length_setNth {α : Type} (l : List α) (n : Nat) (v : α) :
    (setNth l n v).length = l.length := by
  induction l generalizing n with
  | nil => rfl
  | cons x xs ih => cases n <;> simp [setNth, ih]

theorem nthD_setNth_ne {α : Type} (l : List α) {n m : Nat} (v d : α) (h : n ≠ m) :
    nthD (setNth l n v) m d = nthD l m d := by
  induction l generalizing n m with
  | nil => rfl
  | cons x xs ih =>
      cases n with
      | zero =>
          cases m with
          | zero => exact absurd rfl h
          | succ m => rfl
      | succ n =>
          cases m with
          | zero => rfl
          | succ m =>
              simp only [setNth, nthD]
              exact ih (fun he => h (congrArg Nat.succ he))

theorem nthD_setNth_eq {α : Type} (l : List α) {n : Nat} (v d : α) (h : n < l.length) :
    nthD (setNth l n v) n d = v := by
  induction l generalizing n with
  | nil => simp at h
  | cons x xs ih =>
      cases n with
      | zero => rfl
      | succ n =>
          simp only [setNth, nthD]
          exact ih (Nat.lt_of_succ_lt_succ h)

theorem nthD_append_lt {α : Type} (l l2 : List α) {m : Nat} (d : α) (h : m < l.length) :
    nthD (l ++ l2) m d = nthD l m d := by
  induction l generalizing m with
  | nil => simp at h
  | cons x xs ih =>
      cases m with
      | zero => rfl
      | succ m => exact ih (Nat.lt_of_succ_lt_succ h)

theorem nthD_append_ge {α : Type} (l l2 : List α) {m : Nat} (d : α) (h : l.length ≤ m) :
    nthD (l ++ l2) m d = nthD l2 (m - l.length) d := by
  induction l generalizing m with
  | nil => rfl
  | cons x xs ih =>
      cases m with
      | zero => simp at h
      | succ m =>
          simp only [List.cons_append, nthD, List.length_cons, Nat.succ_sub_succ]
          exact ih (Nat.le_of_succ_le_succ h)

theorem nthD_replicate {α : Type} (n m : Nat) (a d : α) :
    nthD (List.replicate n a) m d = if m < n then a else d := by
  induction n generalizing m with
  | zero => simp [nthD]
  | succ n ih =>
      cases m with
      | zero => simp [List.replicate, nthD]
      | succ m =>
          simp only [List.replicate, nthD, ih]
          by_cases h : m < n
          · simp [h, Nat.succ_lt_succ h]
          · simp [h, fun hc => h (Nat.lt_of_succ_lt_succ hc)]

theorem nthD_out_of_range {α : Type} (l : List α) {m : Nat} (d : α) (h : l.length ≤ m) :
    nthD l m d = d := by
  induction l generalizing m with
  | nil => rfl
  | cons x xs ih =>
      cases m with
      | zero => simp at h
      | succ m => exact ih (Nat.le_of_succ_le_succ h)

/-- DataTable (excel.py lines 81-127): a pandas DataFrame modelled as its
column names (header) and its body rows, plus the table-local CellFormatMap. -/
structure DataTable where
  header : List Cell
  body : List (List Cell)
  format_map : CellFormatMap
deriving DecidableEq

/-- DataTable.total_rows (excel.py lines 89-92): body rows plus one for the
header row. -/
def DataTable.total_rows (t : DataTable) : Nat := t.body.length + 1

/-- DataTable.total_columns (excel.py lines 94-96). -/
def DataTable.total_columns (t : DataTable) : Nat := t.header.length

/-- pandas DataFrame.insert at the right edge (the only call shape used by
insert_empty_columns): rejects a duplicate column label, then rejects a values
list whose length differs from the number of body rows, else appends the
column. -/
def DataTable.dfInsert (t : DataTable) (col_label : Cell) (values : List Cell) :
    Except String DataTable :=
  if col_label ∈ t.header then
    Except.error "ValueError: cannot insert column, already exists"
  else if values.length = t.body.length then
    Except.ok ⟨t.header ++ [col_label], List.zipWith (fun row v => row ++ [v]) t.body values,
      t.format_map⟩
  else
    Except.error "ValueError: Length of values does not match length of index"

/-- The loop body of DataTable.insert_empty_columns, with num_rows computed
once before the loop as in the source. -/
def insertEmptyColumnsLoop : DataTable → Nat → Nat → Except String DataTable
  | t, _, 0 => Except.ok t
  | t, num_rows, Nat.succ k =>
      match t.dfInsert Cell.null (List.replicate num_rows Cell.null) with
      | Except.ok t1 => insertEmptyColumnsLoop t1 num_rows k
      | Except.error e => Except.error e

/-- DataTable.insert_empty_columns (excel.py lines 102-105): how_many times,
insert at position total_columns a column of None values of length total_rows
(which counts the synthesized header row). -/
def DataTable.insert_empty_columns (t : DataTable) (how_many : Nat) : Except String DataTable :=
  insertEmptyColumnsLoop t t.total_rows how_many

/-- DataSheet (excel.py lines 130-190): the dense grid, the sheet-level master
format map, and the tracked grid size. -/
structure DataSheet where
  grid : List (List Cell)
  master_format_map : CellFormatMap
  num_rows : Nat
  num_cols : Nat
deriving DecidableEq

/-- DataSheet() (excel.py lines 132-137): empty grid, empty master map. -/
def emptySheet : DataSheet := ⟨[], ⟨[]⟩, 0, 0⟩

/-- DataSheet.shape (excel.py lines 139-141). -/
def DataSheet.shape (s : DataSheet) : Nat × Nat := (s.num_rows, s.num_cols)

/-- DataSheet._ensure_size (excel.py lines 143-160): grow to the componentwise
maximum of the current and required size, padding existing rows on the right
and appending fresh rows, always with the empty-string filler. -/
def DataSheet.ensure_size (s : DataSheet) (required_num_rows required_num_cols : Nat) :
    DataSheet :=
  let rows := max s.num_rows required_num_rows
  let cols := max s.num_cols required_num_cols
  let grid1 :=
    if s.num_cols < cols then
      s.grid.map (fun row => row ++ List.replicate (cols - s.num_cols) Cell.empty)
    else s.grid
  let grid2 :=
    if s.num_rows < rows then
      grid1 ++ List.replicate (rows - s.num_rows) (List.replicate cols Cell.empty)
    else grid1
  { grid := grid2, master_format_map := s.master_format_map, num_rows := rows, num_cols := cols }

/-- The inner column loop of the grid write in insert_data_table: write the
values of one table row into the grid row starting at the column offset. -/
def writeRow : List Cell → Nat → List Cell → List Cell
  | row, _, [] => row
  | row, c0, v :: rest => writeRow (setNth row c0 v) (c0 + 1) rest

/-- The outer row loop of the grid write in insert_data_table (excel.py lines
178-180): write the stacked table values row by row at the anchor. -/
def writeTable : List (List Cell) → Nat → Nat → List (List Cell) → List (List Cell)
  | g, _, _, [] => g
  | g, r0, c0, rvals :: rest =>
      writeTable (setNth g r0 (writeRow (nthD g r0 []) c0 rvals)) (r0 + 1) c0 rest

/-- The format-merging loop of insert_data_table (excel.py lines 182-187):
each table-local entry is translated by the anchor and inserted with
format_cell, with exist_ok left at its default false. -/
def mergeTableFormats : CellFormatMap → Nat → Nat → List ((Nat × Nat) × ExcelFormat) →
    Except String CellFormatMap
  | m, _, _, [] => Except.ok m
  | m, r0, c0, ((r, c), f) :: rest =>
      match m.format_cell (r0 + r) (c0 + c) f false with
      | Except.ok m1 => mergeTableFormats m1 r0 c0 rest
      | Except.error e => Except.error e

/-- DataSheet.insert_data_table (excel.py lines 162-187): stack the header row
over the body, grow the grid to cover the anchored footprint, write the values
cell by cell, then merge the table-local format map into the master map. -/
def DataSheet.insert_data_table (s : DataSheet) (data_table : DataTable)
    (row_start_idx col_start_idx : Nat) : Except String DataSheet :=
  let table_values := data_table.header :: data_table.body
  let num_rows := table_values.length
  let num_cols := data_table.header.length
  let s1 := s.ensure_size (row_start_idx + num_rows) (col_start_idx + num_cols)
  let g2 := writeTable s1.grid row_start_idx col_start_idx table_values
  match mergeTableFormats s1.master_format_map row_start_idx col_start_idx
      data_table.format_map.cells with
  | Except.ok m =>
      Except.ok
        { grid := g2
          master_format_map := m
          num_rows := s1.num_rows
          num_cols := s1.num_cols }
  | Except.error e => Except.error e

/-- A sequence of insert_data_table calls, in order; an exception aborts the
sequence as in Python. -/
def insertAll : DataSheet → List (DataTable × Nat × Nat) → Except String DataSheet
  | s, [] => Except.ok s
  | s, (t, r, c) :: rest =>
      match s.insert_data_table t r c with
      | Except.ok s1 => insertAll s1 rest
      | Except.error e => Except.error e

/-- Whether the master map already holds a format at a coordinate. -/
def hasLoc (m : CellFormatMap) (loc : Nat × Nat) : Bool :=
  (lookupLoc m.cells loc).isSome

/-- Reading one grid cell, with the empty filler as the default. -/
def getCell (g : List (List Cell)) (r c : Nat) : Cell := nthD (nthD g r []) c Cell.empty

theorem mergeTableFormats_ok {entries : List ((Nat × Nat) × ExcelFormat)}
    {m m' : CellFormatMap} {r0 c0 : Nat}
    (h : mergeTableFormats m r0 c0 entries = Except.ok m') :
    m'.cells = m.cells ++ entries.map (fun e => ((r0 + e.1.1, c0 + e.1.2), e.2)) := by
  induction entries generalizing m with
  | nil =>
      simp only [mergeTableFormats] at h
      cases h
      simp
  | cons y rest ih =>
      obtain ⟨⟨r, c⟩, f⟩ := y
      simp only [mergeTableFormats] at h
      cases hfc : m.format_cell (r0 + r) (c0 + c) f false with
      | error e => rw [hfc] at h; cases h
      | ok m1 =>
          rw [hfc] at h
          obtain ⟨hfree, hm1⟩ := format_cell_false_ok.mp hfc
          have := ih h
          subst hm1
          simpa [List.append_assoc] using this

theorem hasLoc_format_cell_mono {m m1 : CellFormatMap} {r c : Nat} {f : ExcelFormat}
    {loc : Nat × Nat} (hfc : m.format_cell r c f false = Except.ok m1)
    (h : hasLoc m loc = true) : hasLoc m1 loc = true := by
  obtain ⟨hfree, hm1⟩ := format_cell_false_ok.mp hfc
  subst hm1
  unfold hasLoc at h ⊢
  cases hl : lookupLoc m.cells loc with
  | none => rw [hl] at h; simp at h
  | some g => rw [lookupLoc_append_some hl]; rfl

theorem mergeTableFormats_collision {entries : List ((Nat × Nat) × ExcelFormat)}
    {m : CellFormatMap} {r0 c0 : Nat} {e : (Nat × Nat) × ExcelFormat}
    (he : e ∈ entries) (hloc : hasLoc m (r0 + e.1.1, c0 + e.1.2) = true) :
    isExceptError (mergeTableFormats m r0 c0 entries) = true := by
  induction entries generalizing m with
  | nil => cases he
  | cons y rest ih =>
      obtain ⟨⟨r, c⟩, f⟩ := y
      rcases List.mem_cons.mp he with hey | herest
      · subst hey
        unfold hasLoc at hloc
        cases hl : lookupLoc m.cells (r0 + r, c0 + c) with
        | none => rw [hl] at hloc; simp at hloc
        | some g =>
            simp only [mergeTableFormats, CellFormatMap.format_cell, hl]
            rfl
      · simp only [mergeTableFormats]
        cases hfc : m.format_cell (r0 + r) (c0 + c) f false with
        | error e2 => rfl
        | ok m1 => exact ih herest (hasLoc_format_cell_mono hfc hloc)

/-- A format whose only set attribute is boldness. -/
def boldFmt : ExcelFormat := ⟨none, none, some true, none, none⟩

/-- A one-column header-only table whose local format map holds a bold format
at local coordinate (0, 0). -/
def c1table : DataTable := ⟨[Cell.str "A"], [], ⟨[((0, 0), boldFmt)]⟩⟩

/-- C1 counterexample: inserting two tables that both format the same sheet
coordinate makes the second insert_data_table call raise, because the master
map insert is made with exist_ok at its default false, refuting the claim that
the sheet-level merge never fails at a coordinate formatted by two tables. -/
theorem claim_C1_counterexample :
    isExceptError (insertAll emptySheet [(c1table, 0, 0), (c1table, 0, 0)]) = true := by
  rfl

/-- C1 (amended): insert_data_table translates each table-local entry
(local_row, local_col) to (anchor_row + local_row, anchor_col + local_col) and
inserts it into the sheet-level registry in table insertion order, but with
exist_ok false: when it succeeds, the master map is extended by exactly the
translated entries, and whenever some translated coordinate is already
formatted in the master map the call raises a duplicate-cell error instead of
merging. -/
theorem claim_C1 : ∀ (s : DataSheet) (t : DataTable) (r0 c0 : Nat),
    (∀ s', s.insert_data_table t r0 c0 = Except.ok s' →
      s'.master_format_map.cells =
        s.master_format_map.cells ++
          t.format_map.cells.map (fun e => ((r0 + e.1.1, c0 + e.1.2), e.2))) ∧
    (∀ e, e ∈ t.format_map.cells → hasLoc s.master_format_map (r0 + e.1.1, c0 + e.1.2) = true →
      isExceptError (s.insert_data_table t r0 c0) = true) := by
  intro s t r0 c0
  constructor
  · intro s' h
    simp only [DataSheet.insert_data_table, DataSheet.ensure_size] at h
    cases hm : mergeTableFormats s.master_format_map r0 c0 t.format_map.cells with
    | error e => rw [hm] at h; cases h
    | ok mm =>
        rw [hm] at h
        cases h
        exact mergeTableFormats_ok hm
  · intro e he hloc
    simp only [DataSheet.insert_data_table, DataSheet.ensure_size]
    cases hm : mergeTableFormats s.master_format_map r0 c0 t.format_map.cells with
    | error e2 => rfl
    | ok mm =>
        have := mergeTableFormats_collision he hloc
        rw [hm] at this
        cases this

/-- The sheet obtained by inserting c1table once into an empty sheet. -/
def c1inserted : DataSheet :=
  ((emptySheet.insert_data_table c1table 0 0).toOption).getD emptySheet

/-- C1 witness: the amended claim applied at concrete inputs; the first insert
extends the empty master map by the translated entry, and a second insert of a
table formatting the same sheet coordinate raises. -/
theorem claim_C1_witness :
    c1inserted.master_format_map.cells = [((0, 0), boldFmt)] ∧
    isExceptError (c1inserted.insert_data_table c1table 0 0) = true := by
  constructor
  · have h : emptySheet.insert_data_table c1table 0 0 = Except.ok c1inserted := by rfl
    have := (claim_C1 emptySheet c1table 0 0).1 c1inserted h
    simpa using this
  · exact (claim_C1 c1inserted c1table 0 0).2 ((0, 0), boldFmt) (by decide) (by decide)

/-- The concrete table of the C7 failing input: two named columns and a
two-row body. -/
def t7 : DataTable :=
  ⟨[Cell.str "x", Cell.str "y"], [[Cell.num 1, Cell.num 2], [Cell.num 3, Cell.num 4]], ⟨[]⟩⟩

/-- C7: evaluation of insert_empty_columns at the failing input.  The code
builds the new column with total_rows values, where total_rows counts the
extra header row, so the column is one value longer than the body has rows and
the underlying DataFrame.insert raises ValueError; the claimed append of a
null column never happens, for this or any other table. -/
theorem claim_C7 :
    t7.insert_empty_columns 1 =
      Except.error "ValueError: Length of values does not match length of index" := by
  rfl

theorem insert_data_table_shape {s s' : DataSheet} {t : DataTable} {r0 c0 : Nat}
    (h : s.insert_data_table t r0 c0 = Except.ok s') :
    s'.num_rows = max s.num_rows (r0 + t.total_rows) ∧
    s'.num_cols = max s.num_cols (c0 + t.total_columns) := by
  simp only [DataSheet.insert_data_table, DataSheet.ensure_size] at h
  cases hm : mergeTableFormats s.master_format_map r0 c0 t.format_map.cells with
  | error e => rw [hm] at h; cases h
  | ok mm =>
      rw [hm] at h
      cases h
      exact ⟨by simp [DataTable.total_rows], by simp [DataTable.total_columns]⟩

theorem insertAll_shape {ts : List (DataTable × Nat × Nat)} {s s' : DataSheet}
    (h : insertAll s ts = Except.ok s') :
    s'.num_rows = ts.foldl (fun a x => max a (x.2.1 + x.1.total_rows)) s.num_rows ∧
    s'.num_cols = ts.foldl (fun a x => max a (x.2.2 + x.1.total_columns)) s.num_cols := by
  induction ts generalizing s with
  | nil =>
      simp only [insertAll] at h
      cases h
      simp
  | cons y rest ih =>
      obtain ⟨t, r, c⟩ := y
      simp only [insertAll] at h
      cases hi : s.insert_data_table t r c with
      | error e => rw [hi] at h; cases h
      | ok s1 =>
          rw [hi] at h
          obtain ⟨h1, h2⟩ := ih h
          obtain ⟨g1, g2⟩ := insert_data_table_shape hi
          constructor
          · rw [List.foldl_cons, h1, g1]
          · rw [List.foldl_cons, h2, g2]

/-- Modelled from the words of the spec, for comparison with the code: the
componentwise maximum over anchored tables of anchor plus table size, starting
from (0, 0). -/
def specMaxShape (ts : List (DataTable × Nat × Nat)) : Nat × Nat :=
  (ts.foldl (fun a x => max a (x.2.1 + x.1.total_rows)) 0,
   ts.foldl (fun a x => max a (x.2.2 + x.1.total_columns)) 0)

/-- The C4 example table T1: two named columns, two body rows, so shape
(3, 2) counting the header row. -/
def t4a : DataTable :=
  ⟨[Cell.str "A", Cell.str "B"], [[Cell.num 1, Cell.num 2], [Cell.num 3, Cell.num 4]], ⟨[]⟩⟩

/-- The C4 example table T2: two named columns, one body row, so shape
(2, 2) counting the header row. -/
def t4b : DataTable :=
  ⟨[Cell.str "C", Cell.str "D"], [[Cell.num 5, Cell.num 6]], ⟨[]⟩⟩

/-- The tables of the C4 example, T1 anchored at (0, 0) and T2 at (5, 0). -/
def c4tables : List (DataTable × Nat × Nat) := [(t4a, 0, 0), (t4b, 5, 0)]

/-- The flattened grid the C4 example must produce: the header row of T1 at
row 0, its body at rows 1 and 2, filler rows 3 and 4, the header row of T2 at
row 5 and its body at row 6. -/
def c4grid : List (List Cell) :=
  [[Cell.str "A", Cell.str "B"],
   [Cell.num 1, Cell.num 2],
   [Cell.num 3, Cell.num 4],
   [Cell.empty, Cell.empty],
   [Cell.empty, Cell.empty],
   [Cell.str "C", Cell.str "D"],
   [Cell.num 5, Cell.num 6]]

/-- C4: for every sheet built by a sequence of insert_data_table calls, the
derived shape is the componentwise maximum over anchored tables of anchor plus
header-inclusive table size, (0, 0) for no tables; and on the concrete
two-table example the shape is (7, 2) with the header row of T1 at grid row 0,
the header row of T2 at grid row 5, and no cell of one table overwritten by
the other. -/
theorem claim_C4 :
    (∀ (ts : List (DataTable × Nat × Nat)) (s' : DataSheet),
      insertAll emptySheet ts = Except.ok s' → s'.shape = specMaxShape ts) ∧
    (insertAll emptySheet c4tables).toOption.map (fun s => (s.shape, s.grid)) =
      some ((7, 2), c4grid) := by
  constructor
  · intro ts s' h
    obtain ⟨h1, h2⟩ := insertAll_shape h
    simp only [DataSheet.shape, specMaxShape, h1, h2, emptySheet]
  · rfl

/-- The sheet built from the C4 example tables. -/
def c4sheet : DataSheet := ((insertAll emptySheet c4tables).toOption).getD emptySheet

/-- C4 witness: the universal shape statement applied at the concrete
two-table example. -/
theorem claim_C4_witness :
    (insertAll emptySheet c4tables).toOption.map DataSheet.shape = some (specMaxShape c4tables) := by
  have h : insertAll emptySheet c4tables = Except.ok c4sheet := by rfl
  rw [h]
  simp only [Except.toOption, Option.map]
  exact congrArg some (claim_C4.1 c4tables c4sheet h)

theorem setNth_out_of_range {α : Type} (l : List α) {n : Nat} (v : α) (h : l.length ≤ n) :
    setNth l n v = l := by
  induction l generalizing n with
  | nil => rfl
  | cons x xs ih =>
      cases n with
      | zero => simp at h
      | succ n => simp only [setNth]; rw [ih (Nat.le_of_succ_le_succ h)]

theorem nthD_map {α β : Type} (f : α → β) (g : List α) {r : Nat} (d : α) (d2 : β)
    (h : r < g.length) : nthD (g.map f) r d2 = f (nthD g r d) := by
  induction g generalizing r with
  | nil => simp at h
  | cons x xs ih =>
      cases r with
      | zero => rfl
      | succ r => exact ih (Nat.lt_of_succ_lt_succ h)

theorem ensure_size_num_rows (s : DataSheet) (a b : Nat) :
    (s.ensure_size a b).num_rows = max s.num_rows a := rfl

theorem ensure_size_num_cols (s : DataSheet) (a b : Nat) :
    (s.ensure_size a b).num_cols = max s.num_cols b := rfl

theorem ensure_size_master (s : DataSheet) (a b : Nat) :
    (s.ensure_size a b).master_format_map = s.master_format_map := rfl

theorem ensure_size_grid (s : DataSheet) (a b : Nat) :
    (s.ensure_size a b).grid =
      (if s.num_cols < max s.num_cols b then
        s.grid.map (fun row => row ++ List.replicate (max s.num_cols b - s.num_cols) Cell.empty)
      else s.grid) ++
      (if s.num_rows < max s.num_rows a then
        List.replicate (max s.num_rows a - s.num_rows)
          (List.replicate (max s.num_cols b) Cell.empty)
      else []) := by
  unfold DataSheet.ensure_size
  by_cases hc : s.num_cols < max s.num_cols b <;>
    by_cases hr : s.num_rows < max s.num_rows a <;> simp [hc, hr]

/-- Well-formedness of a DataSheet: the grid has exactly num_rows rows and
every row in range has exactly num_cols cells. -/
def WF (s : DataSheet) : Prop :=
  s.grid.length = s.num_rows ∧ ∀ r, r < s.num_rows → (nthD s.grid r []).length = s.num_cols

/-- Rectangularity of a table body: every body row is as long as the header,
the shape numpy vstack requires of the stacked table values. -/
def RectTable (t : DataTable) : Prop :=
  ∀ row ∈ t.body, row.length = t.header.length

/-- The rectangle of sheet coordinates covered by a table of nr rows and nc
columns anchored at (r0, c0). -/
def inRect (r0 c0 nr nc r c : Nat) : Prop :=
  r0 ≤ r ∧ r < r0 + nr ∧ c0 ≤ c ∧ c < c0 + nc


theorem getCell_row_out (g : List (List Cell)) {r : Nat} (c : Nat) (h : g.length ≤ r) :
    getCell g r c = Cell.empty := by
  unfold getCell
  rw [nthD_out_of_range g _ h]
  rfl

theorem getCell_col_out (g : List (List Cell)) {r c : Nat}
    (h : (nthD g r []).length ≤ c) : getCell g r c = Cell.empty := by
  unfold getCell
  exact nthD_out_of_range _ _ h

theorem getCell_append_empty_rows (g : List (List Cell)) (n C r c : Nat) :
    getCell (g ++ List.replicate n (List.replicate C Cell.empty)) r c = getCell g r c := by
  by_cases hrl : r < g.length
  · unfold getCell
    rw [nthD_append_lt _ _ _ hrl]
  · unfold getCell
    rw [nthD_append_ge _ _ _ (Nat.not_lt.mp hrl), nthD_replicate,
      nthD_out_of_range g ([] : List Cell) (Nat.not_lt.mp hrl)]
    split
    · rw [nthD_replicate]
      split <;> rfl
    · rfl

theorem getCell_pad_cols (g : List (List Cell)) (k r c : Nat) :
    getCell (g.map (fun row => row ++ List.replicate k Cell.empty)) r c = getCell g r c := by
  by_cases hrl : r < g.length
  · unfold getCell
    rw [nthD_map _ _ ([] : List Cell) _ hrl]
    by_cases hcl : c < (nthD g r []).length
    · rw [nthD_append_lt _ _ _ hcl]
    · rw [nthD_append_ge _ _ _ (Nat.not_lt.mp hcl), nthD_replicate,
        nthD_out_of_range (nthD g r []) Cell.empty (Nat.not_lt.mp hcl)]
      split <;> rfl
  · unfold getCell
    rw [nthD_out_of_range (g.map (fun row => row ++ List.replicate k Cell.empty))
        ([] : List Cell) (by simpa using Nat.not_lt.mp hrl),
      nthD_out_of_range g ([] : List Cell) (Nat.not_lt.mp hrl)]

theorem ensure_size_getCell (s : DataSheet) (a b r c : Nat) :
    getCell (s.ensure_size a b).grid r c = getCell s.grid r c := by
  rw [ensure_size_grid]
  by_cases hc : s.num_cols < max s.num_cols b <;>
    by_cases hr : s.num_rows < max s.num_rows a
  · rw [if_pos hc, if_pos hr, getCell_append_empty_rows, getCell_pad_cols]
  · rw [if_pos hc, if_neg hr, List.append_nil, getCell_pad_cols]
  · rw [if_neg hc, if_pos hr, getCell_append_empty_rows]
  · rw [if_neg hc, if_neg hr, List.append_nil]

theorem ensure_size_WF {s : DataSheet} (hwf : WF s) (a b : Nat) : WF (s.ensure_size a b) := by
  obtain ⟨hlen, hrows⟩ := hwf
  constructor
  · rw [ensure_size_grid, ensure_size_num_rows]
    by_cases hc : s.num_cols < max s.num_cols b <;>
      by_cases hr : s.num_rows < max s.num_rows a <;>
      simp only [if_pos, if_neg, hc, hr, if_true, if_false, List.length_append,
        List.length_map, List.length_replicate, List.append_nil] <;> omega
  · intro r hr'
    rw [ensure_size_num_rows] at hr'
    rw [ensure_size_grid, ensure_size_num_cols]
    by_cases hc : s.num_cols < max s.num_cols b <;>
      by_cases hr : s.num_rows < max s.num_rows a
    · rw [if_pos hc, if_pos hr]
      by_cases hrl : r < s.grid.length
      · have hmaplen : r <
            (s.grid.map (fun row =>
              row ++ List.replicate (max s.num_cols b - s.num_cols) Cell.empty)).length := by
          simpa using hrl
        rw [nthD_append_lt _ _ _ hmaplen, nthD_map _ _ ([] : List Cell) _ hrl]
        have hro := hrows r (by omega)
        simp only [List.length_append, List.length_replicate, hro]
        omega
      · have hge :
            (s.grid.map (fun row =>
              row ++ List.replicate (max s.num_cols b - s.num_cols) Cell.empty)).length ≤ r := by
          simpa using Nat.not_lt.mp hrl
        rw [nthD_append_ge _ _ _ hge, nthD_replicate,
          if_pos (by simp only [List.length_map]; omega)]
        simp
    · rw [if_pos hc, if_neg hr, List.append_nil]
      have hrl : r < s.grid.length := by omega
      rw [nthD_map _ _ ([] : List Cell) _ hrl]
      have hro := hrows r (by omega)
      simp only [List.length_append, List.length_replicate, hro]
      omega
    · rw [if_neg hc, if_pos hr]
      by_cases hrl : r < s.grid.length
      · rw [nthD_append_lt _ _ _ hrl]
        have hro := hrows r (by omega)
        omega
      · rw [nthD_append_ge _ _ _ (Nat.not_lt.mp hrl), nthD_replicate, if_pos (by omega)]
        simp
    · rw [if_neg hc, if_neg hr, List.append_nil]
      have hro := hrows r (by omega)
      omega

theorem writeRow_length (row : List Cell) (c0 : Nat) (vs : List Cell) :
    (writeRow row c0 vs).length = row.length := by
  induction vs generalizing row c0 with
  | nil => rfl
  | cons v rest ih =>
      simp only [writeRow]
      rw [ih, length_setNth]

theorem nthD_writeRow_outside {row : List Cell} {c0 : Nat} {vs : List Cell} {c : Nat}
    (h : c < c0 ∨ c0 + vs.length ≤ c) :
    nthD (writeRow row c0 vs) c Cell.empty = nthD row c Cell.empty := by
  induction vs generalizing row c0 with
  | nil => rfl
  | cons v rest ih =>
      simp only [writeRow]
      rw [ih (by simp only [List.length_cons] at h; omega)]
      exact nthD_setNth_ne row v Cell.empty (by simp only [List.length_cons] at h; omega)

theorem writeTable_length (g : List (List Cell)) (r0 c0 : Nat) (vals : List (List Cell)) :
    (writeTable g r0 c0 vals).length = g.length := by
  induction vals generalizing g r0 with
  | nil => rfl
  | cons rv rest ih =>
      simp only [writeTable]
      rw [ih, length_setNth]

theorem nthD_writeTable_length (g : List (List Cell)) (r0 c0 : Nat) (vals : List (List Cell))
    (r : Nat) :
    (nthD (writeTable g r0 c0 vals) r []).length = (nthD g r []).length := by
  induction vals generalizing g r0 with
  | nil => rfl
  | cons rv rest ih =>
      simp only [writeTable]
      rw [ih]
      by_cases hrr : r0 = r
      · subst hrr
        by_cases hrl : r0 < g.length
        · rw [nthD_setNth_eq _ _ _ hrl, writeRow_length]
        · rw [setNth_out_of_range _ _ (Nat.not_lt.mp hrl)]
      · rw [nthD_setNth_ne _ _ _ hrr]

theorem writeTable_getCell_outside {vals : List (List Cell)} {g : List (List Cell)}
    {r0 c0 r c w : Nat} (hw : ∀ rv ∈ vals, rv.length = w)
    (hout : ¬ inRect r0 c0 vals.length w r c) :
    getCell (writeTable g r0 c0 vals) r c = getCell g r c := by
  induction vals generalizing g r0 with
  | nil => rfl
  | cons rv rest ih =>
      simp only [writeTable]
      have hout2 : ¬ inRect (r0 + 1) c0 rest.length w r c := by
        intro hin
        unfold inRect at hin hout
        simp only [List.length_cons] at hout
        omega
      rw [ih (fun rv2 h2 => hw rv2 (List.mem_cons_of_mem rv h2)) hout2]
      by_cases hrr : r0 = r
      · subst hrr
        have hrv : rv.length = w := hw rv (List.mem_cons_self rv rest)
        have hcout : c < c0 ∨ c0 + rv.length ≤ c := by
          unfold inRect at hout
          simp only [List.length_cons] at hout
          omega
        by_cases hrl : r0 < g.length
        · unfold getCell
          rw [nthD_setNth_eq _ _ _ hrl]
          exact nthD_writeRow_outside hcout
        · rw [setNth_out_of_range _ _ (Nat.not_lt.mp hrl)]
      · unfold getCell
        rw [nthD_setNth_ne _ _ _ hrr]

theorem insert_data_table_grid {s s' : DataSheet} {t : DataTable} {r0 c0 : Nat}
    (h : s.insert_data_table t r0 c0 = Except.ok s') :
    s'.grid = writeTable
      (s.ensure_size (r0 + (t.header :: t.body).length) (c0 + t.header.length)).grid
      r0 c0 (t.header :: t.body) := by
  simp only [DataSheet.insert_data_table, ensure_size_master] at h
  cases hm : mergeTableFormats s.master_format_map r0 c0 t.format_map.cells with
  | error e =>
      rw [hm] at h
      cases h
  | ok mm =>
      rw [hm] at h
      cases h
      rfl

/-- C10: after a successful insert_data_table call on a well-formed sheet with
a rectangular table, the grid is again rectangular with exactly shape rows and
columns, the shape is the maximum of the old shape and the anchored footprint
(so it never decreases in either dimension), and every grid cell outside the
rectangle covered by the inserted table (header row plus body at the anchor)
keeps the value it had before the call. -/
theorem claim_C10 : ∀ (s : DataSheet) (t : DataTable) (r0 c0 : Nat) (s' : DataSheet),
    WF s → RectTable t → s.insert_data_table t r0 c0 = Except.ok s' →
    WF s' ∧
    s'.shape = (max s.num_rows (r0 + t.total_rows), max s.num_cols (c0 + t.total_columns)) ∧
    s.num_rows ≤ s'.num_rows ∧ s.num_cols ≤ s'.num_cols ∧
    ∀ r c, ¬ inRect r0 c0 t.total_rows t.total_columns r c →
      getCell s'.grid r c = getCell s.grid r c := by
  intro s t r0 c0 s' hwf hrect h
  obtain ⟨h1, h2⟩ := insert_data_table_shape h
  have hgrid := insert_data_table_grid h
  have hlen_cons : (t.header :: t.body).length = t.total_rows := by
    simp [DataTable.total_rows]
  have hEwf : WF (s.ensure_size (r0 + (t.header :: t.body).length) (c0 + t.header.length)) :=
    ensure_size_WF hwf _ _
  have hErows :
      (s.ensure_size (r0 + (t.header :: t.body).length) (c0 + t.header.length)).num_rows =
        s'.num_rows := by
    rw [ensure_size_num_rows, hlen_cons, h1]
  have hEcols :
      (s.ensure_size (r0 + (t.header :: t.body).length) (c0 + t.header.length)).num_cols =
        s'.num_cols := by
    rw [ensure_size_num_cols, h2]
    rfl
  have hwvals : ∀ rv ∈ t.header :: t.body, rv.length = t.header.length := by
    intro rv hrv
    rcases List.mem_cons.mp hrv with hh | hh
    · rw [hh]
    · exact hrect rv hh
  refine ⟨⟨?_, ?_⟩, ?_, ?_, ?_, ?_⟩
  · rw [hgrid, writeTable_length, hEwf.1, hErows]
  · intro r hr'
    rw [hgrid, nthD_writeTable_length, ← hEcols]
    exact hEwf.2 r (by rw [hErows]; exact hr')
  · unfold DataSheet.shape
    rw [h1, h2]
  · rw [h1]
    omega
  · rw [h2]
    omega
  · intro r c hout
    rw [hgrid, writeTable_getCell_outside hwvals hout]
    exact ensure_size_getCell s _ _ r c

/-- The sheet obtained by inserting the rectangular table t4a once into an
empty sheet. -/
def c10sheet : DataSheet :=
  ((emptySheet.insert_data_table t4a 0 0).toOption).getD emptySheet

/-- C10 witness: the invariant applied at a concrete insert into the empty
sheet. -/
theorem claim_C10_witness :
    WF c10sheet ∧ emptySheet.num_rows ≤ c10sheet.num_rows ∧
    getCell c10sheet.grid 9 9 = getCell emptySheet.grid 9 9 := by
  have h : emptySheet.insert_data_table t4a 0 0 = Except.ok c10sheet := by rfl
  have hmain := claim_C10 emptySheet t4a 0 0 c10sheet (by unfold WF; decide)
    (by unfold RectTable; decide) h
  exact ⟨hmain.1, hmain.2.2.1, hmain.2.2.2.2 9 9 (by unfold inRect; decide)⟩

/-- One cell write issued to the external workbook writer during export:
destination row and column, and the value, none standing for Python None. -/
structure WriteOp where
  row : Nat
  col : Nat
  value : Option Cell
deriving DecidableEq

/-- The value test of ExcelManager.export (excel.py line 232): pandas isna is
true of None and NaN (both modelled by Cell.null), and the membership test
against the pair of float infinities catches Cell.inf and Cell.neginf.  The
empty-string filler is not caught by either test. -/
def isNaOrInf : Cell → Bool
  | Cell.null => true
  | Cell.inf => true
  | Cell.neginf => true
  | _ => false

/-- The write issued for one master-map entry in ExcelManager.export (excel.py
lines 224-238): the row index is incremented by 1 to account for the header
row written at destination row 0, and a value caught by the isna-or-infinity
test is replaced by None before writing. -/
def writeFor (s : DataSheet) (e : (Nat × Nat) × ExcelFormat) : WriteOp :=
  let v := getCell s.grid e.1.1 e.1.2
  { row := e.1.1 + 1, col := e.1.2, value := if isNaOrInf v then none else some v }

/-- All per-cell writes issued for a sheet during export, one per entry of the
merged master format map, in iteration order. -/
def exportCellWrites (s : DataSheet) : List WriteOp :=
  s.master_format_map.cells.map (writeFor s)

/-- An explicit empty marker among written values: Python None, or the
empty-string filler that already denotes an empty cell in the grid. -/
def isEmptyMarker : Option Cell → Bool
  | none => true
  | some Cell.empty => true
  | _ => false

/-- The null, empty and plus-or-minus-infinity grid values named by the
claim. -/
def isNullEmptyOrInf : Cell → Bool
  | Cell.null => true
  | Cell.inf => true
  | Cell.neginf => true
  | Cell.empty => true
  | _ => false

/-- C5: during export every entry (row, col, format) of the merged master map
produces exactly one write, at row index row + 1 and at column col, so the +1
header offset is applied uniformly to all written cells; and whenever the grid
value at the entry is null, empty or one of the two infinities, the written
value is an explicit empty marker. -/
theorem claim_C5 : ∀ s : DataSheet,
    (∀ e, e ∈ s.master_format_map.cells →
      writeFor s e ∈ exportCellWrites s ∧
      (writeFor s e).row = e.1.1 + 1 ∧
      (writeFor s e).col = e.1.2 ∧
      (isNullEmptyOrInf (getCell s.grid e.1.1 e.1.2) = true →
        isEmptyMarker (writeFor s e).value = true)) ∧
    (∀ op, op ∈ exportCellWrites s →
      ∃ e, e ∈ s.master_format_map.cells ∧ op = writeFor s e ∧ op.row = e.1.1 + 1) := by
  intro s
  constructor
  · intro e he
    refine ⟨List.mem_map_of_mem _ he, rfl, rfl, ?_⟩
    intro hv
    have hval : (writeFor s e).value =
        (if isNaOrInf (getCell s.grid e.1.1 e.1.2) then none
         else some (getCell s.grid e.1.1 e.1.2)) := rfl
    rw [hval]
    cases hc : getCell s.grid e.1.1 e.1.2 with
    | empty => rfl
    | null => rfl
    | inf => rfl
    | neginf => rfl
    | str v => rw [hc] at hv; simp [isNullEmptyOrInf] at hv
    | num v => rw [hc] at hv; simp [isNullEmptyOrInf] at hv
  · intro op hop
    obtain ⟨e, he, heq⟩ := List.mem_map.mp hop
    exact ⟨e, he, heq.symm, by rw [← heq]; rfl⟩

/-- A one-cell sheet whose single grid value is None and whose master map
formats that cell. -/
def c5sheet : DataSheet := ⟨[[Cell.null]], ⟨[((0, 0), boldFmt)]⟩, 1, 1⟩

/-- C5 witness: the export-write description applied at a concrete sheet with
a formatted null cell. -/
theorem claim_C5_witness :
    (writeFor c5sheet ((0, 0), boldFmt)).row = 1 ∧
    isEmptyMarker (writeFor c5sheet ((0, 0), boldFmt)).value = true ∧
    writeFor c5sheet ((0, 0), boldFmt) ∈ exportCellWrites c5sheet := by
  have h := (claim_C5 c5sheet).1 ((0, 0), boldFmt) (by decide)
  exact ⟨h.2.1, h.2.2.2 (by rfl), h.1⟩

/-- A Python ExcelFormat object during export: the attribute record together
with its object identity, fresh for every deep copy stored in a format map. -/
structure FmtObj where
  oid : Nat
  fmt : ExcelFormat
deriving DecidableEq

/-- ExcelFormat hashing (excel.py lines 43-46): the hash is taken over the
four-attribute tuple (font_color, font_size, is_bold, fill_color). -/
def ExcelFormat.hashTuple (f : ExcelFormat) :
    Option HexColor × Option Int × Option Bool × Option HexColor :=
  (f.font_color, f.font_size, f.is_bold, f.fill_color)

/-- Key membership of the formats_map dict in ExcelManager.export: since
ExcelFormat defines no equality of its own, Python falls back to default
object identity when comparing hash-equal keys, so membership holds only for
the very same object. -/
def formatsMapInsert (keys : List FmtObj) (x : FmtObj) : List FmtObj :=
  if keys.any (fun k => k.oid == x.oid) then keys else keys ++ [x]

/-- The population of formats_map over the export loop (excel.py lines
226-227), registering a workbook format for every key not already present. -/
def registerFormats (entries : List FmtObj) : List FmtObj :=
  entries.foldl formatsMapInsert []

/-- The format produced by the default ExcelFormat constructor arguments. -/
def c6fmt : ExcelFormat := ⟨none, some 14, some false, none, some "left"⟩

/-- A first stored copy of c6fmt, with its own object identity. -/
def c6a : FmtObj := ⟨0, c6fmt⟩

/-- A second stored copy of c6fmt, attribute-wise identical but a distinct
object. -/
def c6b : FmtObj := ⟨1, c6fmt⟩

/-- C6: evaluation of the export deduplication at the failing input.  Two
attribute-wise identical ExcelFormat objects hash to the same tuple, but
because the class defines no structural equality the formats_map membership
test compares by object identity, so both objects are registered with the
workbook and the style handle is created twice for one structural identity. -/
theorem claim_C6 :
    c6a.fmt = c6b.fmt ∧
    ExcelFormat.hashTuple c6a.fmt = ExcelFormat.hashTuple c6b.fmt ∧
    (registerFormats [c6a, c6b]).length = 2 := by
  exact ⟨rfl, rfl, rfl⟩

/-- The two output strategies OutputManager can construct
(input_output_managers.py lines 206-221). -/
inductive ManagerKind
  | excelKind
  | csvKind
deriving DecidableEq

/-- The dispatch conditional inside OutputManager.init (input_output_managers.py
lines 215-221): the manager assigned to the _manager attribute.  The
constructor extracts the extension with os.path.splitext and lowercases it
with str.lower, both standard-library preprocessing; ext here is that
lowercased extension.  It routes .xlsx and .xls to the workbook manager and
.csv to the flat-record manager, and anything else raises ValueError. -/
def OutputManager.selectManager (ext : String) : Except String ManagerKind :=
  if ext == ".xlsx" || ext == ".xls" then Except.ok ManagerKind.excelKind
  else if ext == ".csv" then Except.ok ManagerKind.csvKind
  else Except.error "ValueError: Output path is not supported."

/-- OutputManager construction end to end (input_output_managers.py lines
209-229): the dispatch conditional runs first; with the default data argument
None the add_data branch is skipped; then the method body ends with return
self at line 229.  Python raises TypeError whenever a constructor body returns
a value other than None, after the body has run, so a construction whose
extension passed the dispatch still raises and never yields the assigned
manager; only an unsupported extension raises the earlier ValueError
instead. -/
def OutputManager.init (ext : String) : Except String ManagerKind :=
  match OutputManager.selectManager ext with
  | Except.error e => Except.error e
  | Except.ok _ => Except.error "TypeError: __init__() should return None"

/-- C8: evaluation of OutputManager construction at the failing inputs.  The
dispatch conditional does assign the workbook manager for .xlsx and .xls and
the flat-record manager for .csv, and an unsupported extension does raise
ValueError at construction time; but because the constructor body ends with
return self, every construction with a supported extension raises TypeError
and never produces the routed manager the claim promises. -/
theorem claim_C8 :
    OutputManager.selectManager ".xlsx" = Except.ok ManagerKind.excelKind ∧
    OutputManager.selectManager ".xls" = Except.ok ManagerKind.excelKind ∧
    OutputManager.selectManager ".csv" = Except.ok ManagerKind.csvKind ∧
    OutputManager.init ".xlsx" = Except.error "TypeError: __init__() should return None" ∧
    OutputManager.init ".xls" = Except.error "TypeError: __init__() should return None" ∧
    OutputManager.init ".csv" = Except.error "TypeError: __init__() should return None" ∧
    OutputManager.init ".txt" = Except.error "ValueError: Output path is not supported." := by
  exact ⟨rfl, rfl, rfl, rfl, rfl, rfl, rfl⟩

/-- JSON scalar values of a record field, as the external json module parses
them. -/
inductive JVal
  | jnull
  | jbool (b : Bool)
  | jnum (n : Int)
  | jstr (s : String)
deriving DecidableEq

/-- One JSON object, the dictionary record of one JSON-lines line. -/
abbrev JsonObj := List (String × JVal)

/-- A JSON-lines file as the sequence of records held by its lines, one
object per line; the external json.dumps and json.loads are mutually inverse
on records, so each line is identified with its parsed object. -/
structure JsonlFile where
  lines : List JsonObj
deriving DecidableEq

/-- JsonlManager construction on a missing path (jsonl.py lines 13-15):
creates the file empty. -/
def JsonlManager.emptyFile : JsonlFile := ⟨[]⟩

/-- JsonlManager.save (jsonl.py lines 24-32) for dictionary records: appends
one serialized line per record, in order, to the end of the file. -/
def JsonlManager.save (f : JsonlFile) (items : List JsonObj) : JsonlFile :=
  ⟨f.lines ++ items⟩

/-- JsonlManager.read (jsonl.py lines 34-41): parses every line of the file,
in order. -/
def JsonlManager.read (f : JsonlFile) : List JsonObj := f.lines

/-- C9: writing any sequence of dictionary records to a fresh JSON-lines file
and reading it back yields the same records in the same order, in particular
the same count, for every length including 0, 1 and 1000. -/
theorem claim_C9 : ∀ items : List JsonObj,
    JsonlManager.read (JsonlManager.save JsonlManager.emptyFile items) = items ∧
    (JsonlManager.read (JsonlManager.save JsonlManager.emptyFile items)).length =
      items.length := by
  intro items
  constructor
  · simp [JsonlManager.read, JsonlManager.save, JsonlManager.emptyFile]
  · simp [JsonlManager.read, JsonlManager.save, JsonlManager.emptyFile]
